import Mathlib

/-!
Verification development for the Readout repository core:
the timeframe slicer/aggregator (`src/DataBlockAggregator.cxx`) and the
RORC equipment producer (`src/ReadoutEquipmentRORC.cxx`).

All definitions below are shallow embeddings of the C++ source.  Machine
integers are modelled as `Nat`/`Int` with explicit reductions modulo
`2^w` wherever the C++ arithmetic can wrap.  FIFO queues are modelled as
Lean lists (front of the list = oldest element / next popped).
-/

set_option autoImplicit false

/-! ## Constants shared by the data model

The numeric values of the sentinels come from the spec (the repository
header `DataBlockAggregator.h` / `DataBlock.h` defining them is not part
of `src/`). -/

/-- Modelled from the spec: `linkId == UNDEFINED_LINK (0xFF)` is the reserved
sentinel for an undefined link id (`DataBlock.h` is not under `src/`). -/
def undefinedLinkId : Nat := 255

/-- Modelled from the spec: `equipmentId == UNDEFINED_EQ (0)` is the reserved
sentinel for an undefined equipment id (`DataBlock.h` is not under `src/`). -/
def undefinedEquipmentId : Nat := 0

/-- Modelled from the spec: the `UNDEFINED_TIMEFRAME` sentinel value for the
64-bit timeframe id (`DataBlock.h` is not under `src/`); the concrete numeric
value plays no role in the claims other than being a fixed sentinel. -/
def undefinedTimeframeId : Nat := 0

/-- Modelled from the spec: `MAX_LINKS`, the exclusive upper bound on valid
link ids checked by `DataBlockSlicer::appendBlock` (`DataBlockAggregator.h`
is not under `src/`); the claims do not depend on its numeric value. -/
def maxLinks : Nat := 32

/-! ## Data model of the slicer (`DataBlockAggregator.cxx`) -/

/-- The part of the C++ `DataBlock` header that the aggregator reads:
`timeframeId` (`uint64_t`), `linkId`, `equipmentId`; `blockId` is kept so
that distinct pages are distinguishable values. -/
structure DataBlockH where
  timeframeId : Nat
  linkId : Nat
  equipmentId : Nat
  blockId : Nat
deriving DecidableEq, Repr

/-- A `DataSet` is an ordered sequence of page references
(`std::vector<DataBlockContainerReference>`). -/
abbrev DataSet := List DataBlockH

/-- The key of the slicer's `partialSlices` map (`DataSourceId`). -/
structure DataSourceId where
  linkId : Nat
  equipmentId : Nat
deriving DecidableEq, Repr

/-- Per-source state of a slicer (`PartialSlice`): current timeframe id,
the open data set (`nullptr` modelled as `none`) and the last update
timestamp.  Timestamps are modelled as `Int` (the C++ `double` is only
ever compared with `≤`, never computed with). -/
structure PartialSlice where
  tfId : Nat
  currentDataSet : Option DataSet
  lastUpdateTime : Int
deriving DecidableEq, Repr

/-- The value a `std::map<DataSourceId, PartialSlice>` default-constructs
on first access of a new key (`partialSlices[sourceId]`): value
initialization gives zeroed fields and a null data-set pointer. -/
def defaultPartialSlice : PartialSlice := ⟨0, none, 0⟩

/-- `partialSlices` lookup with default construction on absent keys, as
`std::map::operator[]` does (the map is modelled as an association list). -/
def assocGetD (m : List (DataSourceId × PartialSlice)) (k : DataSourceId) : PartialSlice :=
  match m with
  | [] => defaultPartialSlice
  | (k', v) :: rest => if k' = k then v else assocGetD rest k

/-- Store a value under a key in the association list modelling
`partialSlices`, inserting the key if absent. -/
def assocSet (m : List (DataSourceId × PartialSlice)) (k : DataSourceId)
    (v : PartialSlice) : List (DataSourceId × PartialSlice) :=
  match m with
  | [] => [(k, v)]
  | (k', v') :: rest => if k' = k then (k, v) :: rest else (k', v') :: assocSet rest k v

/-- State of a `DataBlockSlicer`: the per-source partial slices and the
FIFO of completed slices (`slices`; front = oldest, i.e. next popped). -/
structure DataBlockSlicer where
  partialSlices : List (DataSourceId × PartialSlice)
  slices : List DataSet
deriving DecidableEq, Repr

instance : Inhabited DataBlockSlicer := ⟨⟨[], []⟩⟩

/-- The freshly constructed slicer (`DataBlockSlicer::DataBlockSlicer`). -/
def emptySlicer : DataBlockSlicer := ⟨[], []⟩

/-- `DataBlockSlicer::appendBlock` (DataBlockAggregator.cxx:186-232).
Returns the int result (−1 on invalid link id, else the size of the open
data set after the append) together with the updated slicer state. -/
def DataBlockSlicer.appendBlock (sl : DataBlockSlicer) (block : DataBlockH)
    (timestamp : Int) : Int × DataBlockSlicer :=
  let tfId := block.timeframeId
  let sourceId : DataSourceId := ⟨block.linkId, block.equipmentId⟩
  if sourceId.linkId ≠ undefinedLinkId ∧ maxLinks ≤ sourceId.linkId then
    (-1, sl)
  else
    let s := assocGetD sl.partialSlices sourceId
    let closing : List DataSet × PartialSlice :=
      match s.currentDataSet with
      | some d =>
        if s.tfId ≠ tfId ∨ tfId = undefinedTimeframeId then
          (sl.slices ++ [d], { s with currentDataSet := none })
        else (sl.slices, s)
      | none => (sl.slices, s)
    let d := (closing.2.currentDataSet.getD []) ++ [block]
    let s' : PartialSlice := ⟨tfId, some d, timestamp⟩
    ((d.length : Int),
      { partialSlices := assocSet sl.partialSlices sourceId s', slices := closing.1 })

/-- Helper for `getSlice(includeIncomplete = true)`: take the first
non-null `currentDataSet` in map iteration order, nulling its slot
(DataBlockAggregator.cxx:240-246). -/
def takeFirstOpen : List (DataSourceId × PartialSlice) →
    Option DataSet × List (DataSourceId × PartialSlice)
  | [] => (none, [])
  | (k, s) :: rest =>
    match s.currentDataSet with
    | some d => (some d, (k, { s with currentDataSet := none }) :: rest)
    | none =>
      let r := takeFirstOpen rest
      (r.1, (k, s) :: r.2)

/-- `DataBlockSlicer::getSlice` (DataBlockAggregator.cxx:234-255). -/
def DataBlockSlicer.getSlice (sl : DataBlockSlicer) (includeIncomplete : Bool) :
    Option DataSet × DataBlockSlicer :=
  match sl.slices with
  | [] =>
    if includeIncomplete then
      let r := takeFirstOpen sl.partialSlices
      (r.1, { sl with partialSlices := r.2 })
    else (none, sl)
  | d :: rest => (some d, { sl with slices := rest })

/-- Helper for `completeSliceOnTimeout`: walk the `partialSlices` map in
iteration order, closing every non-null `currentDataSet` whose
`lastUpdateTime ≤ timestamp` onto the completed queue
(DataBlockAggregator.cxx:259-268).  Returns the updated map, the closed
data sets in iteration order, and the flush count. -/
def flushEntries (timestamp : Int) :
    List (DataSourceId × PartialSlice) →
    List (DataSourceId × PartialSlice) × List DataSet × Nat
  | [] => ([], [], 0)
  | (k, s) :: rest =>
    let r := flushEntries timestamp rest
    match s.currentDataSet with
    | some d =>
      if s.lastUpdateTime ≤ timestamp then
        ((k, { s with currentDataSet := none }) :: r.1, d :: r.2.1, r.2.2 + 1)
      else ((k, s) :: r.1, r.2.1, r.2.2)
    | none => ((k, s) :: r.1, r.2.1, r.2.2)

/-- `DataBlockSlicer::completeSliceOnTimeout` (DataBlockAggregator.cxx:257-270).
Returns `nFlushed` and the updated slicer state. -/
def DataBlockSlicer.completeSliceOnTimeout (sl : DataBlockSlicer)
    (timestamp : Int) : Nat × DataBlockSlicer :=
  let r := flushEntries timestamp sl.partialSlices
  (r.2.2, { partialSlices := r.1, slices := sl.slices ++ r.2.1 })

/-- Feed a sequence of pages into a slicer through `appendBlock`
(the per-source populate loop of `executeCallback`,
DataBlockAggregator.cxx:129-145), discarding the int results. -/
def feedBlocks (sl : DataBlockSlicer) (bs : List DataBlockH) (t : Int) : DataBlockSlicer :=
  bs.foldl (fun s b => (s.appendBlock b t).2) sl

/-- The partial-slice state `appendBlock` reads for a page's source. -/
def DataBlockSlicer.sourceStateOf (sl : DataBlockSlicer) (b : DataBlockH) : PartialSlice :=
  assocGetD sl.partialSlices ⟨b.linkId, b.equipmentId⟩

/-- The timeframe id carried by a (nonempty) data set. -/
def dataSetTfId (d : DataSet) : Nat :=
  (d.head?.map DataBlockH.timeframeId).getD undefinedTimeframeId

/-- The ordering claimed for consecutive emitted timeframe ids: the id does
not decrease, and consecutive equal ids occur only at the
`UNDEFINED_TIMEFRAME` sentinel. -/
def tfOrdered (a b : Nat) : Prop := a ≤ b ∧ (a = b → a = undefinedTimeframeId)

instance (a b : Nat) : Decidable (tfOrdered a b) := by
  unfold tfOrdered; infer_instance

/-- Wellformedness of a partial slice with an open data set: the open set is
non-empty and all its pages carry the stored timeframe id. -/
def GoodOpen (s : PartialSlice) : Prop :=
  ∃ d, s.currentDataSet = some d ∧ d ≠ [] ∧ ∀ b ∈ d, b.timeframeId = s.tfId

/-- The condition under which `completeSliceOnTimeout` closes an entry of
the `partialSlices` map: open data set present and stale `lastUpdateTime`. -/
def flushCond (t : Int) (p : DataSourceId × PartialSlice) : Bool :=
  p.2.currentDataSet.isSome && decide (p.2.lastUpdateTime ≤ t)

/-! ## Machine-integer helpers -/

/-- Reduction modulo `2^32` (C++ `uint32_t` arithmetic). -/
def u32 (n : Nat) : Nat := n % 4294967296

/-- Reduction modulo `2^64` (C++ `uint64_t` arithmetic). -/
def u64 (n : Nat) : Nat := n % 18446744073709551616

/-- `uint32_t` subtraction `a - b` (wraps modulo `2^32`). -/
def u32sub (a b : Nat) : Nat := (a + 4294967296 - u32 b) % 4294967296

/-- The value of `(uint32_t)x` for an `int` value `x`. -/
def u32ofInt (x : Int) : Nat := (x % 4294967296).toNat

/-- Result of a 32-bit signed subtraction/overflowing value, mapped back to
the representative in `[-2^31, 2^31)` (two's-complement `int32_t`). -/
def int32wrap (n : Int) : Int := (n + 2147483648) % 4294967296 - 2147483648

/-! ## Superpage sizing (`ReadoutEquipmentRORC::ReadoutEquipmentRORC`,
ReadoutEquipmentRORC.cxx:227-238) -/

/-- The usable superpage size computed by the constructor:
`superPageSize = mp->getPageSize() - pageSpaceReserved` (`size_t`
arithmetic, wraps modulo `2^64`), then
`superPageSize -= superPageSize % (32*1024)`. -/
def superPageSizeOf (pageSize pageSpaceReserved : Nat) : Nat :=
  let s := (u64 pageSize + 18446744073709551616 - u64 pageSpaceReserved) % 18446744073709551616
  s - s % 32768

/-- Whether the constructor throws `ReadoutEquipmentRORCException`
("Superpage must be at least 32kB"), ReadoutEquipmentRORC.cxx:234-238. -/
def superPageConfigFails (pageSize pageSpaceReserved : Nat) : Bool :=
  superPageSizeOf pageSize pageSpaceReserved == 0

/-! ## Timeframe decoration (`ReadoutEquipmentRORC::getNextBlock`,
ReadoutEquipmentRORC.cxx:457-539) -/

/-- The fields of the first RDH of a page that `getNextBlock` reads, as
returned by `RdhHandle`; `valid = true` means `validateRdh` returned 0. -/
structure PageRdh where
  valid : Bool
  cruId : Nat
  linkId : Nat
  hbOrbit : Nat
deriving DecidableEq, Repr

/-- The mutable equipment state that the timeframe decoration reads and
writes (`uint64_t currentTimeframe`, the two `uint32_t` orbit anchors and
the page/timeframe counters). -/
structure RorcTfState where
  statsNumberOfPages : Nat
  statsNumberOfTimeframes : Nat
  currentTimeframe : Nat
  currentTimeframeHbOrbitBegin : Nat
  firstTimeframeHbOrbitBegin : Nat
deriving DecidableEq, Repr

/-- The page metadata filled in by `getNextBlock` (ReadoutEquipmentRORC.cxx:
535-539) together with the local variable `hbOrbit` (an `int`, `-1` when no
valid first RDH was parsed) that the later RDH-check scan reads. -/
structure PageMeta where
  equipmentId : Nat
  linkId : Nat
  timeframeId : Nat
  hbOrbitVar : Int
deriving DecidableEq, Repr

/-- One harvested page's decoration step (ReadoutEquipmentRORC.cxx:457-539):
page counter increment, the software-clock tick (`usingSoftwareClock` is
`!cfgRdhUseFirstInPageEnabled`, cxx:292-295; `clockTimeout` is the value of
`timeframeClock.isTimeout()`, an input since the timer is external), and the
RDH-driven timeframe derivation that runs when `cfgRdhUseFirstInPageEnabled`
or `cfgRdhCheckEnabled` is set and the first RDH validates. -/
def getNextBlockDecorate (cfgRdhUseFirstInPageEnabled cfgRdhCheckEnabled : Bool)
    (clockTimeout : Bool) (timeframePeriodOrbits : Nat)
    (st : RorcTfState) (rdh : PageRdh) : RorcTfState × PageMeta :=
  let st1 : RorcTfState := { st with statsNumberOfPages := st.statsNumberOfPages + 1 }
  let st2 : RorcTfState :=
    if cfgRdhUseFirstInPageEnabled = false ∧ clockTimeout = true then
      { st1 with currentTimeframe := u64 (st1.currentTimeframe + 1),
                 statsNumberOfTimeframes := st1.statsNumberOfTimeframes + 1 }
    else st1
  if (cfgRdhUseFirstInPageEnabled = true ∨ cfgRdhCheckEnabled = true) ∧ rdh.valid = true then
    let equipmentId := if rdh.cruId = 0 then undefinedEquipmentId else rdh.cruId
    if st2.statsNumberOfPages = 1 ∨
        u32 (st2.currentTimeframeHbOrbitBegin + timeframePeriodOrbits) ≤ u32 rdh.hbOrbit then
      let first := if st2.statsNumberOfPages = 1 then u32 rdh.hbOrbit
                   else st2.firstTimeframeHbOrbitBegin
      let tfBegin := u32sub (u32 rdh.hbOrbit)
        ((u32sub (u32 rdh.hbOrbit) first) % timeframePeriodOrbits)
      let newTf := u32 (1 + u32sub tfBegin first / timeframePeriodOrbits)
      let st3 : RorcTfState :=
        { st2 with statsNumberOfTimeframes := st2.statsNumberOfTimeframes + 1,
                   firstTimeframeHbOrbitBegin := first,
                   currentTimeframeHbOrbitBegin := tfBegin,
                   currentTimeframe := newTf }
      (st3, ⟨equipmentId, rdh.linkId, st3.currentTimeframe, (rdh.hbOrbit : Int)⟩)
    else
      (st2, ⟨equipmentId, rdh.linkId, st2.currentTimeframe, (rdh.hbOrbit : Int)⟩)
  else
    (st2, ⟨undefinedEquipmentId, undefinedLinkId, st2.currentTimeframe, -1⟩)

/-! ## RDH check scan (`ReadoutEquipmentRORC::getNextBlock`,
ReadoutEquipmentRORC.cxx:554-656) -/

/-- One embedded frame header as visited by the check scan: the result of
`validateRdh` on it, its link id, heartbeat orbit, packet counter and
`offsetNextPacket`. -/
structure Rdh where
  valid : Bool
  linkId : Nat
  hbOrbit : Nat
  packetCounter : Nat
  offsetNextPacket : Nat
deriving DecidableEq, Repr

/-- The counters the check scan updates, and the per-link
`RdhLastPacketCounter` array (indexed by link id). -/
structure RdhCheckCounters where
  statsRdhCheckOk : Nat
  statsRdhCheckErr : Nat
  statsRdhCheckStreamErr : Nat
  rdhLastPacketCounter : List Nat
deriving DecidableEq, Repr

/-- The in-page RDH check loop (ReadoutEquipmentRORC.cxx:561-655), run when
`cfgRdhCheckEnabled` is set.  The page is modelled as the list of headers the
offset walk reaches in order (`pageOffset` advancing by `offsetNextPacket`
until it passes `blockSize`, which is the end of the list).  `pageLinkId` and
`hbOrbitVar` are the enclosing function's local variables `linkId` and
`hbOrbit` set by the decoration step; note the loop compares `hbOrbitVar`
(never reassigned inside the loop) against
`currentTimeframeHbOrbitBegin + timeframePeriodOrbits`. -/
def rdhCheckScan (cfgRdhCheckPacketCounterContiguous : Bool)
    (pageLinkId : Nat) (hbOrbitVar : Int)
    (tfOrbitBegin timeframePeriodOrbits : Nat) :
    RdhCheckCounters → List Rdh → RdhCheckCounters
  | c, [] => c
  | c, h :: rest =>
    if h.valid = false then
      { c with statsRdhCheckErr := c.statsRdhCheckErr + 1 }
    else
      let c1 : RdhCheckCounters := { c with statsRdhCheckOk := c.statsRdhCheckOk + 1 }
      if pageLinkId ≠ h.linkId then
        { c1 with statsRdhCheckStreamErr := c1.statsRdhCheckStreamErr + 1 }
      else if u32 (tfOrbitBegin + timeframePeriodOrbits) ≤ u32ofInt hbOrbitVar then
        { c1 with statsRdhCheckStreamErr := c1.statsRdhCheckStreamErr + 1 }
      else
        let c2 : RdhCheckCounters :=
          if cfgRdhCheckPacketCounterContiguous then
            let newCount := h.packetCounter % 256
            if newCount ≠ c1.rdhLastPacketCounter.getD pageLinkId 0 then
              { c1 with rdhLastPacketCounter :=
                  c1.rdhLastPacketCounter.set pageLinkId newCount }
            else c1
          else c1
        if h.offsetNextPacket = 0 then c2
        else rdhCheckScan cfgRdhCheckPacketCounterContiguous pageLinkId hbOrbitVar
          tfOrbitBegin timeframePeriodOrbits c2 rest

/-! ## Drop monitor (`ReadoutEquipmentRORC::prepareBlocks`,
ReadoutEquipmentRORC.cxx:327-348) -/

/-- Drop-monitor state: `int32_t lastPacketDropped` and the `isError`
health counter of the `ReadoutEquipment` base class. -/
structure DropMonitorState where
  lastPacketDropped : Int
  isError : Nat
deriving DecidableEq, Repr

/-- Observable outcome of one drop-monitor step: the new state, whether the
Warning log about dropped packets was emitted, and whether the
`stopOnError`-guarded Error-severity log was emitted. -/
structure DropMonitorOutcome where
  state : DropMonitorState
  warned : Bool
  errorLogged : Bool
deriving DecidableEq, Repr

/-- One drop-monitor step of `prepareBlocks`
(ReadoutEquipmentRORC.cxx:327-348).  The poll runs when this is the first
loop or the 1-second `packetDroppedTimer` expired (`timerTimeout`, external
timer modelled as an input); `currentPacketDropped` is the value returned by
`channel->getDroppedPackets()`.  The delta is an `int32_t` subtraction. -/
def dropMonitorStep (isWaitingFirstLoop timerTimeout stopOnError : Bool)
    (currentPacketDropped : Int) (st : DropMonitorState) : DropMonitorOutcome :=
  if isWaitingFirstLoop = true ∨ timerTimeout = true then
    if currentPacketDropped ≠ st.lastPacketDropped ∧ isWaitingFirstLoop = false then
      if 0 < int32wrap (currentPacketDropped - st.lastPacketDropped) then
        ⟨⟨currentPacketDropped, st.isError + 1⟩, true, stopOnError⟩
      else ⟨⟨currentPacketDropped, st.isError⟩, false, false⟩
    else ⟨⟨currentPacketDropped, st.isError⟩, false, false⟩
  else ⟨st, false, false⟩

/-- Modelled from the spec: the escalation of a recorded data-loss error to
a fatal condition is performed by the `ReadoutEquipment` base class (not
under `src/`): "A positive delta increments a health counter and, if
`stopOnError` is set, escalates to a fatal condition after this tick."  A
tick is fatal exactly when `stopOnError` is set and the tick recorded a new
error. -/
def dropTickFatal (stopOnError : Bool) (st0 : DropMonitorState)
    (o : DropMonitorOutcome) : Bool :=
  stopOnError && decide (st0.isError < o.state.isError)

/-! ## Aggregator callback (`DataBlockAggregator::executeCallback`,
DataBlockAggregator.cxx:86-180) -/

/-- The thread-callback result (`Thread::CallbackResult`). -/
inductive CbResult where
  | Ok
  | Idle
  | Error
deriving DecidableEq, Repr

/-- State of a `DataBlockAggregator`: the input FIFOs (front = next
popped), one slicer per input, the bounded output FIFO with its capacity,
the round-robin memory `nextIndex`, the `doFlush` flag and the
configuration members `disableSlicing` and `cfgSliceTimeout`. -/
structure AggregatorState where
  inputs : List (List DataBlockH)
  slicers : List DataBlockSlicer
  output : List DataSet
  outputCapacity : Nat
  nextIndex : Nat
  doFlush : Bool
  disableSlicing : Bool
  cfgSliceTimeout : Int
deriving DecidableEq, Repr

/-- `output->isFull()` for the bounded output FIFO. -/
def outputIsFull (st : AggregatorState) : Bool :=
  st.outputCapacity ≤ st.output.length

/-- The populate loop for input `i` (DataBlockAggregator.cxx:129-145): up
to `maxLoop` pages are popped and appended to slicer `i`; a non-positive
`appendBlock` result aborts the callback with `Error` (third component
`true`).  Returns the state, the updated `nBlocksIn`, and the error flag. -/
def aggAppendLoop (now : Int) (i : Nat) :
    Nat → AggregatorState → Nat → AggregatorState × Nat × Bool
  | 0, st, nB => (st, nB, false)
  | fuel + 1, st, nB =>
    match st.inputs.getD i [] with
    | [] => (st, nB, false)
    | b :: tl =>
      let st1 : AggregatorState := { st with inputs := st.inputs.set i tl }
      let r := (st1.slicers.getD i default).appendBlock b now
      let st2 : AggregatorState := { st1 with slicers := st1.slicers.set i r.2 }
      if r.1 ≤ 0 then (st2, nB + 1, true)
      else aggAppendLoop now i fuel st2 (nB + 1)

/-- The retrieve loop for input `i` (DataBlockAggregator.cxx:153-169): up to
`maxLoop` completed slices are pulled and pushed to the output; hitting a
full output aborts the callback with `Idle` (third component `true`).
Pushing a slice sets `nextIndex = i + 1`. -/
def aggGetLoop (i : Nat) :
    Nat → AggregatorState → Nat → AggregatorState × Nat × Bool
  | 0, st, nS => (st, nS, false)
  | fuel + 1, st, nS =>
    if outputIsFull st then (st, nS, true)
    else
      let includeIncomplete := st.doFlush && (st.inputs.getD i []).isEmpty
      let r := (st.slicers.getD i default).getSlice includeIncomplete
      let st1 : AggregatorState := { st with slicers := st.slicers.set i r.2 }
      match r.1 with
      | none => (st1, nS, false)
      | some ds =>
        let st2 : AggregatorState :=
          { st1 with output := st1.output ++ [ds], nextIndex := i + 1 }
        aggGetLoop i fuel st2 (nS + 1)

/-- The body of `executeCallback`'s round-robin loop over `ix`
(DataBlockAggregator.cxx:99-170), processing the remaining `ix` values in
order.  `some`-results are the early returns (`Idle` on backpressure,
`Error` on a failed append); `none` means the loop ran to completion. -/
def aggOuter (now : Int) (n : Nat) :
    List Nat → AggregatorState → Nat → Nat →
    Option CbResult × AggregatorState × Nat × Nat
  | [], st, nB, nS => (none, st, nB, nS)
  | ix :: rest, st, nB, nS =>
    if st.disableSlicing then
      if outputIsFull st then (some CbResult.Idle, st, nB, nS)
      else
        match st.inputs.getD ((ix + st.nextIndex) % n) [] with
        | [] => aggOuter now n rest st nB nS
        | b :: tl =>
          aggOuter now n rest
            { st with inputs := st.inputs.set ((ix + st.nextIndex) % n) tl,
                      output := st.output ++ [[b]] } (nB + 1) (nS + 1)
    else
      let ra := aggAppendLoop now ((ix + st.nextIndex) % n) 1024 st nB
      if ra.2.2 then (some CbResult.Error, ra.1, ra.2.1, nS)
      else
        let stt : AggregatorState :=
          if ra.1.cfgSliceTimeout ≠ 0 then
            let ct := ((ra.1.slicers.getD ((ix + st.nextIndex) % n)
              default).completeSliceOnTimeout (now - ra.1.cfgSliceTimeout)).2
            { ra.1 with slicers := ra.1.slicers.set ((ix + st.nextIndex) % n) ct }
          else ra.1
        let rg := aggGetLoop ((ix + st.nextIndex) % n) 1024 stt nS
        if rg.2.2 then (some CbResult.Idle, rg.1, ra.2.1, rg.2.1)
        else aggOuter now n rest rg.1 ra.2.1 rg.2.1

/-- `DataBlockAggregator::executeCallback` (DataBlockAggregator.cxx:86-180). -/
def executeCallback (now : Int) (st : AggregatorState) : CbResult × AggregatorState :=
  if outputIsFull st then (CbResult.Idle, st)
  else
    let n := st.inputs.length
    let r := aggOuter now n (List.range n) st 0 0
    match r.1 with
    | some res => (res, r.2.1)
    | none =>
      if r.2.2.1 = 0 ∧ r.2.2.2 = 0 then
        (CbResult.Idle, { r.2.1 with doFlush := false })
      else (CbResult.Ok, r.2.1)

/-! ## Basic lemmas about the slicer state -/

lemma assocGetD_singleton (k : DataSourceId) (v : PartialSlice) :
    assocGetD [(k, v)] k = v := by
  simp [assocGetD]

lemma assocSet_singleton (k : DataSourceId) (v v' : PartialSlice) :
    assocSet [(k, v)] k v' = [(k, v')] := by
  simp [assocSet]

lemma appendBlock_singleton_open (src : DataSourceId) (s : PartialSlice)
    (L : List DataSet) (b : DataBlockH) (t : Int) (d : DataSet)
    (hs : s.currentDataSet = some d)
    (hb1 : b.linkId = src.linkId) (hb2 : b.equipmentId = src.equipmentId)
    (hlink : ¬(src.linkId ≠ undefinedLinkId ∧ maxLinks ≤ src.linkId)) :
    (DataBlockSlicer.appendBlock ⟨[(src, s)], L⟩ b t).2 =
      if s.tfId ≠ b.timeframeId ∨ b.timeframeId = undefinedTimeframeId then
        ⟨[(src, ⟨b.timeframeId, some [b], t⟩)], L ++ [d]⟩
      else ⟨[(src, ⟨b.timeframeId, some (d ++ [b]), t⟩)], L⟩ := by
  have hsrc : (⟨b.linkId, b.equipmentId⟩ : DataSourceId) = src := by
    cases src; simp_all
  have hlinkb : ¬(b.linkId ≠ undefinedLinkId ∧ maxLinks ≤ b.linkId) := by
    rw [hb1]; exact hlink
  simp only [DataBlockSlicer.appendBlock, hsrc, if_neg hlinkb,
    assocGetD_singleton, hs]
  by_cases hc : s.tfId ≠ b.timeframeId ∨ b.timeframeId = undefinedTimeframeId
  · simp [hc, assocSet_singleton, hs]
  · simp [hc, assocSet_singleton, hs]

lemma appendBlock_empty (b : DataBlockH) (t : Int)
    (hlink : ¬(b.linkId ≠ undefinedLinkId ∧ maxLinks ≤ b.linkId)) :
    (DataBlockSlicer.appendBlock emptySlicer b t).2 =
      ⟨[(⟨b.linkId, b.equipmentId⟩, ⟨b.timeframeId, some [b], t⟩)], []⟩ := by
  simp [DataBlockSlicer.appendBlock, if_neg hlink, emptySlicer, assocGetD, assocSet,
    defaultPartialSlice]

lemma dataSetTfId_of_goodOpen (s : PartialSlice) (d : DataSet)
    (hs : s.currentDataSet = some d) (hne : d ≠ [])
    (htf : ∀ b ∈ d, b.timeframeId = s.tfId) :
    dataSetTfId d = s.tfId := by
  rcases d with _ | ⟨x, rest⟩
  · exact absurd rfl hne
  · simp [dataSetTfId, htf x (by simp)]

lemma chain'_concat_tfOrdered (l : List Nat) (a b : Nat)
    (h : List.Chain' tfOrdered (l ++ [a])) (hab : tfOrdered a b) :
    List.Chain' tfOrdered ((l ++ [a]) ++ [b]) := by
  rw [List.chain'_append]
  refine ⟨h, List.chain'_singleton b, ?_⟩
  intro x hx y hy
  rw [List.getLast?_concat] at hx
  simp at hx hy
  rw [← hx, ← hy]
  exact hab

/-- Invariant preservation for a single-source feed: the slicer keeps a
single wellformed partial slice and the completed queue's timeframe ids
(followed by the open slice's id) form a `tfOrdered` chain, provided the
input ids are fed in non-decreasing order. -/
lemma feed_inv (src : DataSourceId) (t : Int)
    (hlink : ¬(src.linkId ≠ undefinedLinkId ∧ maxLinks ≤ src.linkId)) :
    ∀ (bs : List DataBlockH) (L : List DataSet) (s : PartialSlice),
    (∀ b ∈ bs, b.linkId = src.linkId ∧ b.equipmentId = src.equipmentId) →
    GoodOpen s →
    List.Chain' (· ≤ ·) (s.tfId :: bs.map DataBlockH.timeframeId) →
    List.Chain' tfOrdered (L.map dataSetTfId ++ [s.tfId]) →
    ∃ (L' : List DataSet) (s' : PartialSlice),
      feedBlocks ⟨[(src, s)], L⟩ bs t = ⟨[(src, s')], L'⟩ ∧
      GoodOpen s' ∧
      List.Chain' tfOrdered (L'.map dataSetTfId ++ [s'.tfId]) := by
  intro bs
  induction bs with
  | nil =>
    intro L s _ hgood _ hchain
    exact ⟨L, s, rfl, hgood, hchain⟩
  | cons b rest ih =>
    intro L s hsrc hgood hmono hchain
    obtain ⟨d, hs, hne, htf⟩ := hgood
    have hb := hsrc b (by simp)
    have hstep := appendBlock_singleton_open src s L b t d hs hb.1 hb.2 hlink
    have hfeed : feedBlocks ⟨[(src, s)], L⟩ (b :: rest) t =
        feedBlocks (DataBlockSlicer.appendBlock ⟨[(src, s)], L⟩ b t).2 rest t := rfl
    have hle : s.tfId ≤ b.timeframeId := by
      have := List.chain'_cons.mp hmono
      simpa using this.1
    have hmono' : List.Chain' (· ≤ ·)
        (b.timeframeId :: rest.map DataBlockH.timeframeId) := by
      have := List.chain'_cons.mp hmono
      simpa using this.2
    by_cases hc : s.tfId ≠ b.timeframeId ∨ b.timeframeId = undefinedTimeframeId
    · rw [if_pos hc] at hstep
      rw [hfeed, hstep]
      have hgood' : GoodOpen ⟨b.timeframeId, some [b], t⟩ :=
        ⟨[b], rfl, by simp, by simp⟩
      have hrel : tfOrdered s.tfId b.timeframeId := by
        constructor
        · exact hle
        · intro heq
          rcases hc with hc | hc
          · exact absurd heq hc
          · rw [heq, hc]
      have hchain' : List.Chain' tfOrdered
          ((L ++ [d]).map dataSetTfId ++ [b.timeframeId]) := by
        have hd : dataSetTfId d = s.tfId := dataSetTfId_of_goodOpen s d hs hne htf
        have hmap : (L ++ [d]).map dataSetTfId = L.map dataSetTfId ++ [s.tfId] := by
          simp [hd]
        rw [hmap]
        exact chain'_concat_tfOrdered _ _ _ hchain hrel
      exact ih (L ++ [d]) ⟨b.timeframeId, some [b], t⟩
        (fun x hx => hsrc x (by simp [hx])) hgood' hmono' hchain'
    · rw [if_neg hc] at hstep
      rw [hfeed, hstep]
      push_neg at hc
      have heq : s.tfId = b.timeframeId := hc.1
      have hgood' : GoodOpen ⟨b.timeframeId, some (d ++ [b]), t⟩ := by
        refine ⟨d ++ [b], rfl, by simp, ?_⟩
        intro x hx
        rcases List.mem_append.mp hx with hx | hx
        · simpa [heq] using htf x hx
        · simp at hx; rw [hx]
      have hchain' : List.Chain' tfOrdered (L.map dataSetTfId ++ [b.timeframeId]) := by
        rw [← heq]; exact hchain
      exact ih L ⟨b.timeframeId, some (d ++ [b]), t⟩
        (fun x hx => hsrc x (by simp [hx])) hgood' hmono' hchain'

/-! ## Lemmas about the timeout flush -/

lemma flushEntries_count (t : Int) (m : List (DataSourceId × PartialSlice)) :
    (flushEntries t m).2.2 = (m.filter (flushCond t)).length := by
  induction m with
  | nil => simp [flushEntries]
  | cons p rest ih =>
    obtain ⟨k, s⟩ := p
    rcases hs : s.currentDataSet with _ | d <;>
      by_cases hle : s.lastUpdateTime ≤ t <;>
        simp [flushEntries, hs, hle, flushCond, ih, List.filter]

lemma flushEntries_flushed (t : Int) (m : List (DataSourceId × PartialSlice)) :
    (flushEntries t m).2.1 = m.filterMap (fun p =>
      if p.2.lastUpdateTime ≤ t then p.2.currentDataSet else none) := by
  induction m with
  | nil => simp [flushEntries]
  | cons p rest ih =>
    obtain ⟨k, s⟩ := p
    rcases hs : s.currentDataSet with _ | d <;>
      by_cases hle : s.lastUpdateTime ≤ t <;>
        simp [flushEntries, hs, hle, ih]

lemma flushEntries_idem (t : Int) (m : List (DataSourceId × PartialSlice)) :
    flushEntries t (flushEntries t m).1 = ((flushEntries t m).1, [], 0) := by
  induction m with
  | nil => simp [flushEntries]
  | cons p rest ih =>
    obtain ⟨k, s⟩ := p
    rcases hs : s.currentDataSet with _ | d <;>
      by_cases hle : s.lastUpdateTime ≤ t <;>
        simp [flushEntries, hs, hle, ih]

/-! ## Claim C1 -/

/-- Claim C1: for every source stream fed to `DataBlockSlicer::appendBlock`,
appending a page closes the currently open data set onto the completed
queue exactly when the open set is present and either its stored `tfId`
differs from the page's `timeframeId` or the page's `timeframeId` equals
`UNDEFINED_TIMEFRAME`; consequently feeding `tf=7, 7, 8, 8` followed by a
closing page to one source yields the data sets `{7,7}` then `{8,8}` with
no page in both. -/
theorem claim_C1_appendBlock_close_condition (sl : DataBlockSlicer)
    (b : DataBlockH) (t : Int)
    (hlink : b.linkId = undefinedLinkId ∨ b.linkId < maxLinks) :
    ((sl.appendBlock b t).2.slices =
      sl.slices ++
        (if (sl.sourceStateOf b).currentDataSet ≠ none ∧
            ((sl.sourceStateOf b).tfId ≠ b.timeframeId ∨
              b.timeframeId = undefinedTimeframeId)
         then [(sl.sourceStateOf b).currentDataSet.getD []] else [])) ∧
    (feedBlocks emptySlicer
        [⟨7,0,0,1⟩, ⟨7,0,0,2⟩, ⟨8,0,0,3⟩, ⟨8,0,0,4⟩, ⟨9,0,0,5⟩] 0).slices
      = [[⟨7,0,0,1⟩, ⟨7,0,0,2⟩], [⟨8,0,0,3⟩, ⟨8,0,0,4⟩]] := by
  have hcond : ¬(b.linkId ≠ undefinedLinkId ∧ maxLinks ≤ b.linkId) := by
    rcases hlink with h | h
    · intro hc; exact hc.1 h
    · intro hc; omega
  refine ⟨?_, by decide⟩
  simp only [DataBlockSlicer.appendBlock, if_neg hcond]
  rcases hd : (sl.sourceStateOf b).currentDataSet with _ | d
  · simp only [DataBlockSlicer.sourceStateOf] at hd
    rw [hd]
    simp [hd, DataBlockSlicer.sourceStateOf]
  · simp only [DataBlockSlicer.sourceStateOf] at hd
    rw [hd]
    by_cases hc : (assocGetD sl.partialSlices ⟨b.linkId, b.equipmentId⟩).tfId ≠
        b.timeframeId ∨ b.timeframeId = undefinedTimeframeId
    · simp [hc, hd, DataBlockSlicer.sourceStateOf]
    · simp [hc, hd, DataBlockSlicer.sourceStateOf]

theorem claim_C1_witness :
    (emptySlicer.appendBlock ⟨7,0,0,1⟩ 0).2.slices =
      emptySlicer.slices ++
        (if (emptySlicer.sourceStateOf ⟨7,0,0,1⟩).currentDataSet ≠ none ∧
            ((emptySlicer.sourceStateOf ⟨7,0,0,1⟩).tfId ≠
                (⟨7,0,0,1⟩ : DataBlockH).timeframeId ∨
              (⟨7,0,0,1⟩ : DataBlockH).timeframeId = undefinedTimeframeId)
         then [(emptySlicer.sourceStateOf ⟨7,0,0,1⟩).currentDataSet.getD []]
         else []) :=
  (claim_C1_appendBlock_close_condition emptySlicer ⟨7,0,0,1⟩ 0
    (Or.inr (by decide))).1

/-! ## Claim C2 -/

/-- Claim C2 fails as stated: feeding the decreasing sequence
`tf=5, 3, 4` to one source makes the slicer emit data sets with
timeframe ids `5` then `3`, which is not non-decreasing. -/
theorem claim_C2_counterexample :
    (feedBlocks emptySlicer [⟨5,0,0,1⟩, ⟨3,0,0,2⟩, ⟨4,0,0,3⟩] 0).slices.map
        dataSetTfId = [5, 3] ∧
    ¬ List.Chain' (· ≤ ·)
      ((feedBlocks emptySlicer [⟨5,0,0,1⟩, ⟨3,0,0,2⟩, ⟨4,0,0,3⟩] 0).slices.map
        dataSetTfId) := by
  have h1 : (feedBlocks emptySlicer [⟨5,0,0,1⟩, ⟨3,0,0,2⟩, ⟨4,0,0,3⟩] 0).slices.map
      dataSetTfId = [5, 3] := by decide
  refine ⟨h1, ?_⟩
  rw [h1]
  intro h
  have h53 : (5 : Nat) ≤ 3 := (List.chain'_cons.mp h).1
  omega

/-- Claim C2 (amended): for every `SourceId` and every input page sequence
whose `timeframeId`s are fed in non-decreasing order, the sequence of
`timeframeId`s carried by the data sets the slicer queues for that source
is non-decreasing, and two consecutive queued data sets carry an equal
`timeframeId` only when it is the `UNDEFINED_TIMEFRAME` sentinel (so only
when the sentinel forced the earlier close). -/
theorem claim_C2_emitted_tf_ordered (src : DataSourceId) (t : Int)
    (hlink : src.linkId = undefinedLinkId ∨ src.linkId < maxLinks)
    (bs : List DataBlockH)
    (hsrc : ∀ b ∈ bs, b.linkId = src.linkId ∧ b.equipmentId = src.equipmentId)
    (hmono : List.Chain' (· ≤ ·) (bs.map DataBlockH.timeframeId)) :
    List.Chain' tfOrdered
      ((feedBlocks emptySlicer bs t).slices.map dataSetTfId) := by
  have hlink' : ¬(src.linkId ≠ undefinedLinkId ∧ maxLinks ≤ src.linkId) := by
    rcases hlink with h | h
    · intro hc; exact hc.1 h
    · intro hc; omega
  rcases bs with _ | ⟨b, rest⟩
  · simp [feedBlocks, emptySlicer]
  · have hb := hsrc b (by simp)
    have hlinkb : ¬(b.linkId ≠ undefinedLinkId ∧ maxLinks ≤ b.linkId) := by
      rw [hb.1]; exact hlink'
    have hsrceq : (⟨b.linkId, b.equipmentId⟩ : DataSourceId) = src := by
      cases src; simp_all
    have hfeed : feedBlocks emptySlicer (b :: rest) t =
        feedBlocks (DataBlockSlicer.appendBlock emptySlicer b t).2 rest t := rfl
    rw [hfeed, appendBlock_empty b t hlinkb, hsrceq]
    have hmono1 : List.Chain' (· ≤ ·)
        ((⟨b.timeframeId, some [b], t⟩ : PartialSlice).tfId ::
          rest.map DataBlockH.timeframeId) := by
      simpa using hmono
    obtain ⟨L', s', hfe, _, hchain⟩ := feed_inv src t hlink' rest []
      ⟨b.timeframeId, some [b], t⟩ (fun x hx => hsrc x (by simp [hx]))
      ⟨[b], rfl, by simp, by simp⟩ hmono1 (by simp)
    rw [hfe]
    exact (List.chain'_append.mp hchain).1

theorem claim_C2_witness :
    List.Chain' tfOrdered
      ((feedBlocks emptySlicer [⟨7,0,0,1⟩, ⟨7,0,0,2⟩, ⟨8,0,0,3⟩] 0).slices.map
        dataSetTfId) :=
  claim_C2_emitted_tf_ordered ⟨0, 0⟩ 0 (Or.inr (by decide))
    [⟨7,0,0,1⟩, ⟨7,0,0,2⟩, ⟨8,0,0,3⟩] (by decide)
    (by norm_num [List.chain'_cons])

/-! ## Claim C6 -/

/-- Claim C6: for every slicer state and threshold `t`, one call to
`completeSliceOnTimeout(t)` closes exactly the sources with an open data
set whose `lastUpdateTime ≤ t` (the flush count, the queued sets and the
nulled slots all match that condition), and a second call with the same
`t` immediately afterwards closes nothing, returns `0` and leaves the
state unchanged. -/
theorem claim_C6_timeout_flush_idempotent (sl : DataBlockSlicer) (t : Int) :
    (sl.completeSliceOnTimeout t).1 =
      (sl.partialSlices.filter (flushCond t)).length ∧
    (sl.completeSliceOnTimeout t).2.slices =
      sl.slices ++ sl.partialSlices.filterMap (fun p =>
        if p.2.lastUpdateTime ≤ t then p.2.currentDataSet else none) ∧
    ((sl.completeSliceOnTimeout t).2.completeSliceOnTimeout t).1 = 0 ∧
    ((sl.completeSliceOnTimeout t).2.completeSliceOnTimeout t).2 =
      (sl.completeSliceOnTimeout t).2 := by
  refine ⟨?_, ?_, ?_, ?_⟩
  · simpa [DataBlockSlicer.completeSliceOnTimeout] using
      flushEntries_count t sl.partialSlices
  · simp [DataBlockSlicer.completeSliceOnTimeout, flushEntries_flushed]
  · simp [DataBlockSlicer.completeSliceOnTimeout, flushEntries_idem]
  · simp [DataBlockSlicer.completeSliceOnTimeout, flushEntries_idem]

/-! ## Claim C3 -/

/-- Claim C3 fails as stated: with `rdhUseFirstInPageEnabled` unset but
`rdhCheckEnabled` set, the RDH-metadata branch still runs
(ReadoutEquipmentRORC.cxx:478) and overrides the software-clock timeframe:
on the first page, with no software-clock tick, a valid first RDH yields
`timeframeId = 1` while an invalid one yields `0` — the assigned id does
depend on the page's RDH content. -/
theorem claim_C3_counterexample :
    (getNextBlockDecorate false true false 256 ⟨0,0,0,0,0⟩
        ⟨true, 5, 3, 1000⟩).2.timeframeId = 1 ∧
    (getNextBlockDecorate false true false 256 ⟨0,0,0,0,0⟩
        ⟨false, 5, 3, 1000⟩).2.timeframeId = 0 ∧
    (1 : Nat) ≠ 0 := by
  refine ⟨by decide, by decide, by decide⟩

/-- Claim C3 (amended): whenever neither `rdhUseFirstInPageEnabled` nor
`rdhCheckEnabled` is set, the `timeframeId` assigned to every harvested
page is produced solely by the software clock — `currentTimeframe`
incremented exactly when the timeframe clock expired — and the whole
decoration result is independent of the page's RDH content. -/
theorem claim_C3_software_clock_only (clockTimeout : Bool) (P : Nat)
    (st : RorcTfState) (rdh rdh' : PageRdh) :
    (getNextBlockDecorate false false clockTimeout P st rdh).2.timeframeId =
      (if clockTimeout then u64 (st.currentTimeframe + 1)
       else st.currentTimeframe) ∧
    getNextBlockDecorate false false clockTimeout P st rdh =
      getNextBlockDecorate false false clockTimeout P st rdh' := by
  cases clockTimeout <;> simp [getNextBlockDecorate]

/-! ## Claim C4 -/

/-- Claim C4 describes the intended "no timeframe overlap in page" check,
but the code compares the loop-invariant local `hbOrbit` (set from the
page's first RDH, ReadoutEquipmentRORC.cxx:500, never reassigned inside
the scan loop) instead of the visited header's orbit
(ReadoutEquipmentRORC.cxx:613): the scan result is independent of the
`hbOrbit` fields of the visited headers, and on a page whose second valid
header has `hbOrbit = 300 ≥ 0 + 256 = currentTFOrbitBegin + P` no
stream-inconsistency is recorded and scanning continues to the end. -/
theorem claim_C4_scan_ignores_visited_orbit :
    (∀ (pktc : Bool) (plk : Nat) (hbv : Int) (tb P : Nat)
       (c : RdhCheckCounters) (page : List Rdh) (f : Rdh → Nat),
      rdhCheckScan pktc plk hbv tb P c
          (page.map (fun h => { h with hbOrbit := f h })) =
        rdhCheckScan pktc plk hbv tb P c page) ∧
    (rdhCheckScan true 3 0 0 256 ⟨0, 0, 0, List.replicate 33 0⟩
        [⟨true, 3, 0, 0, 64⟩, ⟨true, 3, 300, 1, 0⟩]).statsRdhCheckStreamErr = 0 ∧
    (rdhCheckScan true 3 0 0 256 ⟨0, 0, 0, List.replicate 33 0⟩
        [⟨true, 3, 0, 0, 64⟩, ⟨true, 3, 300, 1, 0⟩]).statsRdhCheckOk = 2 ∧
    0 + 256 ≤ (300 : Nat) := by
  refine ⟨?_, by decide, by decide, by decide⟩
  intro pktc plk hbv tb P c page f
  induction page generalizing c with
  | nil => rfl
  | cons h rest ih =>
    obtain ⟨v, lk, hb, pc, onp⟩ := h
    cases v
    · rfl
    · by_cases hlk : plk ≠ lk
      · simp [rdhCheckScan, hlk]
      · by_cases hoff : onp = 0 <;>
          by_cases htf : u32 (tb + P) ≤ u32ofInt hbv <;>
            simp [rdhCheckScan, hlk, htf, hoff, ih]

/-! ## Claim C5 -/

/-- Claim C5: when the drop monitor polls (timer expired, not the first
loop) and observes a positive delta in the driver's dropped-packet
counter, the health counter `isError` is incremented and the warning is
logged; the condition escalates to a fatal condition exactly when
`stopOnError` is set, and with `stopOnError` unset it is counted and
warned but not fatal. -/
theorem claim_C5_drop_monitor_escalation (first timeout stopOnError : Bool)
    (current : Int) (st : DropMonitorState)
    (hfirst : first = false) (htimeout : timeout = true)
    (hdelta : 0 < int32wrap (current - st.lastPacketDropped)) :
    (dropMonitorStep first timeout stopOnError current st).state.isError =
      st.isError + 1 ∧
    (dropMonitorStep first timeout stopOnError current st).warned = true ∧
    (dropTickFatal stopOnError st
        (dropMonitorStep first timeout stopOnError current st) = true ↔
      stopOnError = true) ∧
    (stopOnError = false →
      (dropMonitorStep first timeout stopOnError current st).errorLogged = false ∧
      dropTickFatal stopOnError st
        (dropMonitorStep first timeout stopOnError current st) = false) := by
  subst hfirst htimeout
  have hne : current ≠ st.lastPacketDropped := by
    intro he
    rw [he] at hdelta
    norm_num [int32wrap] at hdelta
  simp [dropMonitorStep, hne, hdelta, dropTickFatal]

theorem claim_C5_witness :
    (dropMonitorStep false true true 5 ⟨0, 0⟩).state.isError = 0 + 1 ∧
    (dropMonitorStep false true true 5 ⟨0, 0⟩).warned = true ∧
    (dropTickFatal true ⟨0, 0⟩ (dropMonitorStep false true true 5 ⟨0, 0⟩) = true ↔
      (true : Bool) = true) ∧
    ((true : Bool) = false →
      (dropMonitorStep false true true 5 ⟨0, 0⟩).errorLogged = false ∧
      dropTickFatal true ⟨0, 0⟩ (dropMonitorStep false true true 5 ⟨0, 0⟩) = false) :=
  claim_C5_drop_monitor_escalation false true true 5 ⟨0, 0⟩ rfl rfl (by decide)

/-! ## Claim C7 -/

/-- Claim C7: for every page size and header reserve (within the `size_t`
range, reserve not exceeding the page), the usable superpage size is
`pageSize − headerReserve` rounded down to a multiple of 32 KiB, and the
equipment constructor throws its configuration exception exactly when the
rounded value is zero. -/
theorem claim_C7_superpage_size (pageSize reserved : Nat)
    (hr : reserved ≤ pageSize) (hp : pageSize < 18446744073709551616) :
    superPageSizeOf pageSize reserved = 32768 * ((pageSize - reserved) / 32768) ∧
    (superPageConfigFails pageSize reserved = true ↔
      32768 * ((pageSize - reserved) / 32768) = 0) := by
  have h1 : superPageSizeOf pageSize reserved =
      32768 * ((pageSize - reserved) / 32768) := by
    simp only [superPageSizeOf, u64]
    omega
  refine ⟨h1, ?_⟩
  simp [superPageConfigFails, h1]

theorem claim_C7_witness :
    superPageSizeOf 1048576 8192 = 32768 * ((1048576 - 8192) / 32768) ∧
    (superPageConfigFails 1048576 8192 = true ↔
      32768 * ((1048576 - 8192) / 32768) = 0) :=
  claim_C7_superpage_size 1048576 8192 (by decide) (by decide)

/-! ## Claim C9 -/

/-- Claim C9: if RDH parsing is enabled (`rdhUseFirstInPageEnabled` or
`rdhCheckEnabled`) and the first RDH of the very first harvested page
(`statsNumberOfPages == 1`) validates, the page is assigned
`timeframeId 1` and both `currentTimeframeHbOrbitBegin` and
`firstTimeframeHbOrbitBegin` are set to that page's `hbOrbit`, for every
`uint32` orbit value. -/
theorem claim_C9_first_page (cfgUse cfgCheck clockTimeout : Bool) (P : Nat)
    (st : RorcTfState) (rdh : PageRdh)
    (henabled : cfgUse = true ∨ cfgCheck = true)
    (hvalid : rdh.valid = true)
    (hfirst : st.statsNumberOfPages = 0)
    (horbit : rdh.hbOrbit < 4294967296) :
    (getNextBlockDecorate cfgUse cfgCheck clockTimeout P st rdh).2.timeframeId = 1 ∧
    (getNextBlockDecorate cfgUse cfgCheck clockTimeout P st
      rdh).1.currentTimeframeHbOrbitBegin = rdh.hbOrbit ∧
    (getNextBlockDecorate cfgUse cfgCheck clockTimeout P st
      rdh).1.firstTimeframeHbOrbitBegin = rdh.hbOrbit := by
  have hu32 : u32 rdh.hbOrbit = rdh.hbOrbit := Nat.mod_eq_of_lt horbit
  have hsub : u32sub rdh.hbOrbit rdh.hbOrbit = 0 := by
    simp only [u32sub, u32]
    omega
  have hsub0 : u32sub rdh.hbOrbit 0 = rdh.hbOrbit := by
    simp only [u32sub, u32]
    omega
  cases cfgUse <;> cases cfgCheck <;> cases clockTimeout <;>
    simp_all [getNextBlockDecorate, hu32, hsub, hsub0] <;> decide

theorem claim_C9_witness :
    (getNextBlockDecorate true false false 256 ⟨0,0,0,0,0⟩
        ⟨true, 0, 3, 123456⟩).2.timeframeId = 1 ∧
    (getNextBlockDecorate true false false 256 ⟨0,0,0,0,0⟩
        ⟨true, 0, 3, 123456⟩).1.currentTimeframeHbOrbitBegin =
      (⟨true, 0, 3, 123456⟩ : PageRdh).hbOrbit ∧
    (getNextBlockDecorate true false false 256 ⟨0,0,0,0,0⟩
        ⟨true, 0, 3, 123456⟩).1.firstTimeframeHbOrbitBegin =
      (⟨true, 0, 3, 123456⟩ : PageRdh).hbOrbit :=
  claim_C9_first_page true false false 256 ⟨0,0,0,0,0⟩ ⟨true, 0, 3, 123456⟩
    (Or.inl rfl) rfl rfl (by decide)

/-! ## Claim C10 -/

/-- Claim C10: on every drop-monitor poll, `lastPacketDropped` is updated
to the driver's current counter value regardless of the delta's sign; a
first-loop poll or a non-positive delta (including a counter reset)
produces no warning and no error increment; and re-polling immediately
with the same driver value warns nothing and counts nothing more, so each
reported dropped packet is accounted for at most once across polls. -/
theorem claim_C10_drop_accounting (first timeout stopOnError : Bool)
    (current : Int) (st : DropMonitorState)
    (hpoll : first = true ∨ timeout = true) :
    (dropMonitorStep first timeout stopOnError current st).state.lastPacketDropped =
      current ∧
    (first = true ∨ int32wrap (current - st.lastPacketDropped) ≤ 0 →
      (dropMonitorStep first timeout stopOnError current st).warned = false ∧
      (dropMonitorStep first timeout stopOnError current st).state.isError =
        st.isError) ∧
    (dropMonitorStep false true stopOnError current
        (dropMonitorStep first timeout stopOnError current st).state).warned = false ∧
    (dropMonitorStep false true stopOnError current
        (dropMonitorStep first timeout stopOnError current st).state).state.isError =
      (dropMonitorStep first timeout stopOnError current st).state.isError := by
  have hl : (dropMonitorStep first timeout stopOnError current st).state.lastPacketDropped =
      current := by
    simp only [dropMonitorStep]
    rw [if_pos hpoll]
    by_cases hne : current ≠ st.lastPacketDropped ∧ first = false
    · by_cases hd : 0 < int32wrap (current - st.lastPacketDropped) <;> simp [hne, hd]
    · simp [hne]
  have h2 : dropMonitorStep false true stopOnError current
      (dropMonitorStep first timeout stopOnError current st).state =
      ⟨⟨current, (dropMonitorStep first timeout stopOnError current st).state.isError⟩,
        false, false⟩ := by
    have hcond : ¬(current ≠
        (dropMonitorStep first timeout stopOnError current st).state.lastPacketDropped ∧
        (false : Bool) = false) := by
      rw [hl]
      simp
    conv_lhs => rw [dropMonitorStep]
    rw [if_pos (Or.inr rfl), if_neg hcond]
  refine ⟨hl, ?_, ?_, ?_⟩
  · intro hcase
    simp only [dropMonitorStep]
    rw [if_pos hpoll]
    by_cases hne : current ≠ st.lastPacketDropped ∧ first = false
    · rcases hcase with h | h
      · exact absurd (h ▸ hne.2) (by simp)
      · rw [if_pos hne, if_neg (not_lt.mpr h)]
        exact ⟨rfl, rfl⟩
    · simp [hne]
  · rw [h2]
  · rw [h2]

theorem claim_C10_witness :
    (dropMonitorStep true false false 7 ⟨3, 0⟩).state.lastPacketDropped = 7 ∧
    ((true : Bool) = true ∨ int32wrap (7 - (⟨3, 0⟩ : DropMonitorState).lastPacketDropped) ≤ 0 →
      (dropMonitorStep true false false 7 ⟨3, 0⟩).warned = false ∧
      (dropMonitorStep true false false 7 ⟨3, 0⟩).state.isError =
        (⟨3, 0⟩ : DropMonitorState).isError) ∧
    (dropMonitorStep false true false 7
        (dropMonitorStep true false false 7 ⟨3, 0⟩).state).warned = false ∧
    (dropMonitorStep false true false 7
        (dropMonitorStep true false false 7 ⟨3, 0⟩).state).state.isError =
      (dropMonitorStep true false false 7 ⟨3, 0⟩).state.isError :=
  claim_C10_drop_accounting true false false 7 ⟨3, 0⟩ (Or.inl rfl)

/-! ## Claim C8 -/

lemma getD_set_ne_claim8 (l : List (List DataBlockH)) (i j : Nat)
    (x : List DataBlockH) (h : i ≠ j) :
    (l.set i x).getD j [] = l.getD j [] := by
  simp only [List.getD_eq_getElem?_getD]
  rw [List.getElem?_set_ne h]

lemma getD_set_self_claim8 (l : List (List DataBlockH)) (i : Nat)
    (x : List DataBlockH) (h : i < l.length) :
    (l.set i x).getD i [] = x := by
  simp only [List.getD_eq_getElem?_getD]
  rw [List.getElem?_set_self h]
  rfl

lemma lt_length_of_getD_cons (l : List (List DataBlockH)) (i : Nat)
    (b : DataBlockH) (tl : List DataBlockH) (h : l.getD i [] = b :: tl) :
    i < l.length := by
  by_contra hc
  rw [List.getD_eq_default l [] (by omega)] at h
  exact List.noConfusion h

lemma range_residues_pairwise (n k : Nat) :
    (List.range n).Pairwise (fun a b => (a + k) % n ≠ (b + k) % n) := by
  refine List.Pairwise.imp_of_mem ?_ (List.pairwise_lt_range n)
  intro a b ha hb hlt hab
  have ha2 : a < n := List.mem_range.mp ha
  have hb2 : b < n := List.mem_range.mp hb
  have h2 : a % n = b % n := Nat.ModEq.add_right_cancel' k hab
  rw [Nat.mod_eq_of_lt ha2, Nat.mod_eq_of_lt hb2] at h2
  omega

lemma aggOuter_passthrough (now : Int) (n : Nat) :
    ∀ (ixs : List Nat) (st : AggregatorState) (nB nS : Nat),
    st.disableSlicing = true →
    ixs.Pairwise (fun a b =>
      (a + st.nextIndex) % n ≠ (b + st.nextIndex) % n) →
    ∃ popped : List DataBlockH,
      (aggOuter now n ixs st nB nS).2.1.output =
        st.output ++ popped.map (fun b => [b]) ∧
      (aggOuter now n ixs st nB nS).2.1.nextIndex = st.nextIndex ∧
      (aggOuter now n ixs st nB nS).2.1.slicers = st.slicers ∧
      (∀ j, (aggOuter now n ixs st nB nS).2.1.inputs.getD j [] =
              st.inputs.getD j [] ∨
            (aggOuter now n ixs st nB nS).2.1.inputs.getD j [] =
              (st.inputs.getD j []).tail) ∧
      (∀ j, (∀ ix ∈ ixs, j ≠ (ix + st.nextIndex) % n) →
            (aggOuter now n ixs st nB nS).2.1.inputs.getD j [] =
              st.inputs.getD j []) := by
  intro ixs
  induction ixs with
  | nil =>
    intro st nB nS _ _
    exact ⟨[], by simp [aggOuter], rfl, rfl, fun j => Or.inl rfl, fun j _ => rfl⟩
  | cons ix rest ih =>
    intro st nB nS hmode hpair
    have hres := List.pairwise_cons.mp hpair
    rw [aggOuter, if_pos hmode]
    by_cases hfull : outputIsFull st
    · rw [if_pos hfull]
      exact ⟨[], by simp, rfl, rfl, fun j => Or.inl rfl, fun j _ => rfl⟩
    · rw [if_neg hfull]
      rcases hin : st.inputs.getD ((ix + st.nextIndex) % n) [] with _ | ⟨b, tl⟩
      · obtain ⟨popped, h1, h2, h3, h4, h5⟩ := ih st nB nS hmode hres.2
        refine ⟨popped, h1, h2, h3, h4, ?_⟩
        intro j hj
        exact h5 j (fun ix2 hix2 => hj ix2 (by simp [hix2]))
      · have hlen : (ix + st.nextIndex) % n < st.inputs.length :=
          lt_length_of_getD_cons _ _ _ _ hin
        have hnotin : ∀ ix2 ∈ rest,
            (ix + st.nextIndex) % n ≠ (ix2 + st.nextIndex) % n :=
          fun ix2 h => hres.1 ix2 h
        obtain ⟨popped, h1, h2, h3, h4, h5⟩ :=
          ih { st with inputs := st.inputs.set ((ix + st.nextIndex) % n) tl,
                       output := st.output ++ [[b]] } (nB + 1) (nS + 1) hmode hres.2
        refine ⟨b :: popped, ?_, h2, h3, ?_, ?_⟩
        · rw [h1]
          simp
        · intro j
          by_cases hji : j = (ix + st.nextIndex) % n
          · right
            have hu := h5 j (fun ix2 hix2 => by rw [hji]; exact hnotin ix2 hix2)
            rw [hu, hji, getD_set_self_claim8 _ _ _ hlen, hin]
            rfl
          · rcases h4 j with h | h
            · left
              rw [h]
              simp only []
              rw [getD_set_ne_claim8 _ _ _ _ (fun he => hji he.symm)]
            · right
              rw [h]
              simp only []
              rw [getD_set_ne_claim8 _ _ _ _ (fun he => hji he.symm)]
        · intro j hj
          have hji : j ≠ (ix + st.nextIndex) % n := hj ix (by simp)
          have hu := h5 j (fun ix2 hix2 => hj ix2 (by simp [hix2]))
          rw [hu]
          simp only []
          rw [getD_set_ne_claim8 _ _ _ _ (fun he => hji he.symm)]

lemma executeCallback_state_eq (now : Int) (st : AggregatorState)
    (hfull : outputIsFull st = false) :
    (executeCallback now st).2 =
      (aggOuter now st.inputs.length (List.range st.inputs.length) st 0 0).2.1 ∨
    (executeCallback now st).2 =
      { (aggOuter now st.inputs.length (List.range st.inputs.length) st 0 0).2.1
        with doFlush := false } := by
  simp only [executeCallback]
  rw [if_neg (by simp [hfull])]
  rcases hr : (aggOuter now st.inputs.length (List.range st.inputs.length) st 0 0).1
    with _ | res
  · by_cases hz : (aggOuter now st.inputs.length (List.range st.inputs.length)
        st 0 0).2.2.1 = 0 ∧
        (aggOuter now st.inputs.length (List.range st.inputs.length) st 0 0).2.2.2 = 0
    · right
      simp [hr, hz]
    · left
      simp [hr, hz]
  · left
    simp [hr]

/-- Claim C8: when `disableSlicing` is set, a single invocation of
`DataBlockAggregator::executeCallback` pops at most one page from each
input queue, wraps each popped page in a one-element data set appended to
the output, leaves the slicers untouched and leaves `nextIndex` unchanged
(the round-robin memory advances only in normal slicing mode). -/
theorem claim_C8_passthrough_frame (now : Int) (st : AggregatorState)
    (hmode : st.disableSlicing = true) :
    ∃ popped : List DataBlockH,
      (executeCallback now st).2.output = st.output ++ popped.map (fun b => [b]) ∧
      (executeCallback now st).2.nextIndex = st.nextIndex ∧
      (executeCallback now st).2.slicers = st.slicers ∧
      ∀ j, (executeCallback now st).2.inputs.getD j [] = st.inputs.getD j [] ∨
           (executeCallback now st).2.inputs.getD j [] =
             (st.inputs.getD j []).tail := by
  by_cases hfull : outputIsFull st
  · refine ⟨[], ?_, ?_, ?_, fun j => Or.inl ?_⟩ <;>
      simp [executeCallback, hfull]
  · obtain ⟨popped, h1, h2, h3, h4, _⟩ :=
      aggOuter_passthrough now st.inputs.length (List.range st.inputs.length)
        st 0 0 hmode (range_residues_pairwise st.inputs.length st.nextIndex)
    rcases executeCallback_state_eq now st (by simpa using hfull) with he | he <;>
      exact ⟨popped, by rw [he]; exact h1, by rw [he]; exact h2,
        by rw [he]; exact h3, fun j => by rw [he]; exact h4 j⟩

theorem claim_C8_witness :
    ∃ popped : List DataBlockH,
      (executeCallback 0 ⟨[[⟨1,0,0,1⟩], [⟨2,0,0,2⟩]], [emptySlicer, emptySlicer],
          [], 10, 0, false, true, 0⟩).2.output =
        (⟨[[⟨1,0,0,1⟩], [⟨2,0,0,2⟩]], [emptySlicer, emptySlicer],
          [], 10, 0, false, true, 0⟩ : AggregatorState).output ++
          popped.map (fun b => [b]) ∧
      (executeCallback 0 ⟨[[⟨1,0,0,1⟩], [⟨2,0,0,2⟩]], [emptySlicer, emptySlicer],
          [], 10, 0, false, true, 0⟩).2.nextIndex =
        (⟨[[⟨1,0,0,1⟩], [⟨2,0,0,2⟩]], [emptySlicer, emptySlicer],
          [], 10, 0, false, true, 0⟩ : AggregatorState).nextIndex ∧
      (executeCallback 0 ⟨[[⟨1,0,0,1⟩], [⟨2,0,0,2⟩]], [emptySlicer, emptySlicer],
          [], 10, 0, false, true, 0⟩).2.slicers =
        (⟨[[⟨1,0,0,1⟩], [⟨2,0,0,2⟩]], [emptySlicer, emptySlicer],
          [], 10, 0, false, true, 0⟩ : AggregatorState).slicers ∧
      ∀ j, (executeCallback 0 ⟨[[⟨1,0,0,1⟩], [⟨2,0,0,2⟩]], [emptySlicer, emptySlicer],
          [], 10, 0, false, true, 0⟩).2.inputs.getD j [] =
        (⟨[[⟨1,0,0,1⟩], [⟨2,0,0,2⟩]], [emptySlicer, emptySlicer],
          [], 10, 0, false, true, 0⟩ : AggregatorState).inputs.getD j [] ∨
        (executeCallback 0 ⟨[[⟨1,0,0,1⟩], [⟨2,0,0,2⟩]], [emptySlicer, emptySlicer],
          [], 10, 0, false, true, 0⟩).2.inputs.getD j [] =
        ((⟨[[⟨1,0,0,1⟩], [⟨2,0,0,2⟩]], [emptySlicer, emptySlicer],
          [], 10, 0, false, true, 0⟩ : AggregatorState).inputs.getD j []).tail :=
  claim_C8_passthrough_frame 0 ⟨[[⟨1,0,0,1⟩], [⟨2,0,0,2⟩]], [emptySlicer, emptySlicer],
    [], 10, 0, false, true, 0⟩ rfl
